import Mathlib

/-!
Verification of the Guideflow session-orchestration core against its
natural-language specification.  The definitions below are a shallow
embedding of the TypeScript sources under
`apps/server-orchestrator/src/services` (SessionManager.ts,
ChunkManager.ts, ProcessingPipeline.ts); the theorems settle the spec's
claims about them.
-/

namespace Guideflow

/-! ## Association-list helpers

JavaScript objects keyed by string (`Record<string, T>`) are embedded as
association lists with insertion-order semantics: property assignment
replaces the binding in place, deletion removes it. -/

/-- Lookup of `obj[k]` on a string-keyed record. -/
def alistLookup {α : Type} (l : List (String × α)) (k : String) : Option α :=
  match l with
  | [] => none
  | (k2, v) :: rest => if k2 = k then some v else alistLookup rest k

/-- Assignment `obj[k] = v`: replaces an existing binding in place, else
appends a fresh one. -/
def alistSet {α : Type} (l : List (String × α)) (k : String) (v : α) :
    List (String × α) :=
  match l with
  | [] => [(k, v)]
  | (k2, v2) :: rest => if k2 = k then (k, v) :: rest else (k2, v2) :: alistSet rest k v

/-- Property deletion `delete obj[k]`. -/
def alistRemove {α : Type} (l : List (String × α)) (k : String) :
    List (String × α) :=
  match l with
  | [] => []
  | (k2, v2) :: rest => if k2 = k then rest else (k2, v2) :: alistRemove rest k

theorem alistLookup_set_self {α : Type} (l : List (String × α)) (k : String) (v : α) :
    alistLookup (alistSet l k v) k = some v := by
  induction l with
  | nil => simp [alistSet, alistLookup]
  | cons hd tl ih =>
    obtain ⟨k2, v2⟩ := hd
    by_cases h : k2 = k <;> simp [alistSet, alistLookup, h, ih]

theorem alistSet_set_self {α : Type} (l : List (String × α)) (k : String) (v1 v2 : α) :
    alistSet (alistSet l k v1) k v2 = alistSet l k v2 := by
  induction l with
  | nil => simp [alistSet]
  | cons hd tl ih =>
    obtain ⟨k2, v2'⟩ := hd
    by_cases h : k2 = k <;> simp [alistSet, h, ih]

/-! ## Session Store data model (SessionManager.ts) -/

/-- `viewport` object of a session. -/
structure Viewport where
  width : Nat
  height : Nat
deriving Repr, DecidableEq

/-- Transcription result shape produced by the Transcription Gateway. -/
structure Transcription where
  rawText : String
  words : List String
  confidence : Nat
  duration : Nat
deriving Repr, DecidableEq

/-- `refinedScript` object persisted by the pipeline. -/
structure RefinedScript where
  originalText : String
  refinedText : String
  instructions : List String
deriving Repr, DecidableEq

/-- `SessionData` record from SessionManager.ts.  DOM events are opaque
payloads, embedded as strings. -/
structure SessionData where
  sessionId : String
  url : String
  viewport : Viewport
  startTime : Int
  endTime : Option Int := none
  events : List String := []
  videoPath : Option String := none
  audioPath : Option String := none
  status : String
  title : Option String := none
  description : Option String := none
  transcription : Option Transcription := none
  refinedScript : Option RefinedScript := none
  synthesizedAudioPath : Option String := none
  processedAt : Option String := none
  error : Option String := none
deriving Repr, DecidableEq

/-- `Partial<SessionData>`: the shallow-merge update argument of
`updateSession`.  A `none` field is absent from the update object. -/
structure SessionPatch where
  sessionId : Option String := none
  url : Option String := none
  viewport : Option Viewport := none
  startTime : Option Int := none
  endTime : Option Int := none
  events : Option (List String) := none
  videoPath : Option String := none
  audioPath : Option String := none
  status : Option String := none
  title : Option String := none
  description : Option String := none
  transcription : Option Transcription := none
  refinedScript : Option RefinedScript := none
  synthesizedAudioPath : Option String := none
  processedAt : Option String := none
  error : Option String := none
deriving Repr, DecidableEq

/-- The JS spread `{...old, ...updates}`: fields present in the update
object overwrite, all others are untouched. -/
def mergeSession (s : SessionData) (p : SessionPatch) : SessionData :=
  { sessionId := p.sessionId.getD s.sessionId
  , url := p.url.getD s.url
  , viewport := p.viewport.getD s.viewport
  , startTime := p.startTime.getD s.startTime
  , endTime := match p.endTime with | some v => some v | none => s.endTime
  , events := p.events.getD s.events
  , videoPath := match p.videoPath with | some v => some v | none => s.videoPath
  , audioPath := match p.audioPath with | some v => some v | none => s.audioPath
  , status := p.status.getD s.status
  , title := match p.title with | some v => some v | none => s.title
  , description := match p.description with | some v => some v | none => s.description
  , transcription := match p.transcription with | some v => some v | none => s.transcription
  , refinedScript := match p.refinedScript with | some v => some v | none => s.refinedScript
  , synthesizedAudioPath := match p.synthesizedAudioPath with | some v => some v | none => s.synthesizedAudioPath
  , processedAt := match p.processedAt with | some v => some v | none => s.processedAt
  , error := match p.error with | some v => some v | none => s.error }

/-- `SessionsStore`: the whole persisted JSON document. -/
structure SessionsStore where
  sessions : List (String × SessionData)
  lastUpdated : String
deriving Repr, DecidableEq

/-- On-disk state of the sessions file: absent, present but unreadable or
unparsable, or a stored (parsable) document. -/
inductive DiskFile where
  | absent
  | corrupt
  | stored (store : SessionsStore)
deriving Repr, DecidableEq

/-- File-system operations a store mutation may perform. -/
inductive FileOp where
  | writeFile (path : String)
  | writeTempFile (path : String)
  | rename (src dst : String)
  | removeDir (path : String)
deriving Repr, DecidableEq

/-- Resolved `config.sessionsFile` (default). -/
def sessionsPath : String := "./data/sessions.json"

/-- Resolved `config.recordingsDir` (default). -/
def recordingsDir : String := "./recordings"

/-- `loadSessions`: read and parse the file; on any failure (missing file,
unreadable, bad JSON) the catch-all returns a fresh empty store stamped
with the current time. -/
def loadSessions (disk : DiskFile) (now : String) : SessionsStore :=
  match disk with
  | DiskFile.stored store => store
  | _ => { sessions := [], lastUpdated := now }

theorem loadSessions_stored (st : SessionsStore) (now : String) :
    loadSessions (DiskFile.stored st) now = st := rfl

/-- `saveSessions`: stamp `lastUpdated` and write the whole document out. -/
def saveSessions (store : SessionsStore) (now : String) : DiskFile :=
  DiskFile.stored { store with lastUpdated := now }

/-- File operations performed by `saveSessions`: a single direct
`fs.writeFile` of the sessions file. -/
def saveSessionsOps : List FileOp := [FileOp.writeFile sessionsPath]

/-- Result of a store operation: its return value, the resulting on-disk
state, and the file operations performed. -/
structure StoreResult (α : Type) where
  result : α
  disk : DiskFile
  ops : List FileOp

/-- `createSession`: load, assign `store.sessions[session.sessionId] = session`,
save.  No duplicate check is performed. -/
def createSession (disk : DiskFile) (now : String) (s : SessionData) :
    StoreResult SessionData :=
  ⟨s,
   saveSessions
     { loadSessions disk now with
       sessions := alistSet (loadSessions disk now).sessions s.sessionId s } now,
   saveSessionsOps⟩

/-- `getSession`: load and index; `null` becomes `none`. -/
def getSession (disk : DiskFile) (now : String) (sid : String) : Option SessionData :=
  alistLookup (loadSessions disk now).sessions sid

/-- `updateSession`: load, return `null` if the id is absent, else shallow
merge the update object over the loaded record and save. -/
def updateSession (disk : DiskFile) (now : String) (sid : String) (p : SessionPatch) :
    StoreResult (Option SessionData) :=
  match alistLookup (loadSessions disk now).sessions sid with
  | none => ⟨none, disk, []⟩
  | some s =>
    ⟨some (mergeSession s p),
     saveSessions
       { loadSessions disk now with
         sessions := alistSet (loadSessions disk now).sessions sid (mergeSession s p) } now,
     saveSessionsOps⟩

/-- `appendEvents`: load, throw if the id is absent, else concatenate onto
the record's `events` and save. -/
def appendEvents (disk : DiskFile) (now : String) (sid : String) (evs : List String) :
    StoreResult (Except String Unit) :=
  match alistLookup (loadSessions disk now).sessions sid with
  | none => ⟨Except.error ("Session " ++ sid ++ " not found"), disk, []⟩
  | some s =>
    ⟨Except.ok (),
     saveSessions
       { loadSessions disk now with
         sessions := alistSet (loadSessions disk now).sessions sid
           { s with events := s.events ++ evs } } now,
     saveSessionsOps⟩

/-- Stable insertion (descending by `startTime`) matching the JS
`sort((a, b) => b.startTime - a.startTime)`. -/
def insertDesc (s : SessionData) : List SessionData → List SessionData
  | [] => [s]
  | t :: rest => if t.startTime ≤ s.startTime then s :: t :: rest else t :: insertDesc s rest

/-- Sort sessions by `startTime` descending. -/
def sortByStartDesc : List SessionData → List SessionData
  | [] => []
  | s :: rest => insertDesc s (sortByStartDesc rest)

/-- `listSessions`: all records in insertion order, sorted by `startTime`
descending. -/
def listSessions (disk : DiskFile) (now : String) : List SessionData :=
  sortByStartDesc ((loadSessions disk now).sessions.map Prod.snd)

/-- `deleteSession`: `false` (and no write) when absent; else remove the
session's recordings directory, delete the record, save, return `true`. -/
def deleteSession (disk : DiskFile) (now : String) (sid : String) :
    StoreResult Bool :=
  match alistLookup (loadSessions disk now).sessions sid with
  | none => ⟨false, disk, []⟩
  | some _ =>
    ⟨true,
     saveSessions
       { loadSessions disk now with
         sessions := alistRemove (loadSessions disk now).sessions sid } now,
     FileOp.removeDir (recordingsDir ++ "/" ++ sid) :: saveSessionsOps⟩

/-- Persistence discipline described by the spec's words: the mutation
writes to a temporary location and atomically renames over the store file,
and never writes the store file directly in place. -/
def specAtomicReplacePersist (ops : List FileOp) : Bool :=
  (ops.any fun op => match op with | FileOp.rename _ _ => true | _ => false) &&
  (ops.all fun op => match op with | FileOp.writeFile _ => false | _ => true)

/-! Concrete sample data used by witnesses and counterexamples. -/

def sampleSession : SessionData :=
  { sessionId := "s1"
  , url := "https://example.com"
  , viewport := ⟨1280, 720⟩
  , startTime := 1000
  , events := ["e1"]
  , status := "recording" }

def sampleSessionB : SessionData :=
  { sessionId := "s1"
  , url := "https://other.example"
  , viewport := ⟨800, 600⟩
  , startTime := 2000
  , status := "recording" }

def sampleDisk : DiskFile :=
  DiskFile.stored { sessions := [("s1", sampleSession)], lastUpdated := "t0" }

/-! ## Claims about the Session Store -/

/-- Update patch `{status: "processing"}`. -/
def statusProcessingPatch : SessionPatch := { status := some "processing" }

/-- Update patch `{videoPath: "x"}`. -/
def videoXPatch : SessionPatch := { videoPath := some "x" }

/-- C1: for every existing session, `update {status:"processing"}` followed
immediately by `update {videoPath:"x"}` yields a stored record equal to the
original with both `status = "processing"` and `videoPath = some "x"` set
and every other field untouched: each update is a shallow merge over the
record reloaded from the persisted store, so neither update loses the
other's change. -/
theorem c1_sequential_updates_merge (disk : DiskFile) (n1 n2 sid : String)
    (s : SessionData) (h : getSession disk n1 sid = some s) :
    (updateSession (updateSession disk n1 sid statusProcessingPatch).disk n2 sid
        videoXPatch).result
      = some { s with status := "processing", videoPath := some "x" } ∧
    getSession (updateSession (updateSession disk n1 sid statusProcessingPatch).disk n2 sid
        videoXPatch).disk n2 sid
      = some { s with status := "processing", videoPath := some "x" } := by
  simp only [getSession] at h
  simp [updateSession, getSession, saveSessions, loadSessions_stored, h,
    alistLookup_set_self, mergeSession, statusProcessingPatch, videoXPatch]

/-- Witness for C1 at a concrete store holding `sampleSession`. -/
theorem c1_sequential_updates_merge_witness :
    getSession sampleDisk "t1" "s1" = some sampleSession ∧
    ((updateSession (updateSession sampleDisk "t1" "s1" statusProcessingPatch).disk "t2" "s1"
        videoXPatch).result
      = some { sampleSession with status := "processing", videoPath := some "x" } ∧
    getSession (updateSession (updateSession sampleDisk "t1" "s1" statusProcessingPatch).disk "t2" "s1"
        videoXPatch).disk "t2" "s1"
      = some { sampleSession with status := "processing", videoPath := some "x" }) :=
  ⟨rfl, c1_sequential_updates_merge sampleDisk "t1" "t2" "s1" sampleSession rfl⟩

/-- C2 counterexample: `createSession` with an id that already exists does
not fail and does not leave the existing record unchanged — at a concrete
store holding `sampleSession` under "s1", creating `sampleSessionB` under
the same id silently replaces the stored record. -/
theorem c2_create_overwrites_counterexample :
    getSession (createSession sampleDisk "t1" sampleSessionB).disk "t1" "s1"
      = some sampleSessionB ∧ sampleSessionB ≠ sampleSession := by
  constructor
  · rfl
  · decide

/-- C2 amended: `createSession` performs no duplicate check — for every
store state it unconditionally assigns the record under its id (insert or
overwrite) and returns it; no `DuplicateSession` error exists. -/
theorem c2_create_upserts (disk : DiskFile) (now : String) (s : SessionData) :
    (createSession disk now s).result = s ∧
    getSession (createSession disk now s).disk now s.sessionId = some s := by
  simp [createSession, getSession, saveSessions, loadSessions_stored, alistLookup_set_self]

/-- C9: `appendEvents` is concatenation onto the stored sequence, hence
associative: for every existing session, appending `ab` then `c` leaves
the store in exactly the state reached by appending `ab ++ c` in one call,
and both calls succeed. -/
theorem c9_appendEvents_assoc (disk : DiskFile) (n sid : String)
    (ab c : List String) (s : SessionData) (h : getSession disk n sid = some s) :
    (appendEvents (appendEvents disk n sid ab).disk n sid c).disk
      = (appendEvents disk n sid (ab ++ c)).disk ∧
    (appendEvents (appendEvents disk n sid ab).disk n sid c).result = Except.ok () := by
  simp only [getSession] at h
  simp [appendEvents, saveSessions, loadSessions_stored, h, alistLookup_set_self,
    alistSet_set_self, List.append_assoc]

/-- Witness for C9 at a concrete store holding `sampleSession`. -/
theorem c9_appendEvents_assoc_witness :
    getSession sampleDisk "t1" "s1" = some sampleSession ∧
    ((appendEvents (appendEvents sampleDisk "t1" "s1" ["a", "b"]).disk "t1" "s1" ["c"]).disk
      = (appendEvents sampleDisk "t1" "s1" ["a", "b", "c"]).disk ∧
    (appendEvents (appendEvents sampleDisk "t1" "s1" ["a", "b"]).disk "t1" "s1" ["c"]).result
      = Except.ok ()) :=
  ⟨rfl, c9_appendEvents_assoc sampleDisk "t1" "s1" ["a", "b"] ["c"] sampleSession rfl⟩

/-- C10: whenever the persisted file is absent or unreadable/unparsable,
every store operation behaves as if the store were empty — `get` returns
`none`, `list` returns `[]`, `delete` reports "did not exist" without
writing — and the next mutation (`create`) persists a fresh store holding
only the new record, discarding whatever was on disk, with no failure
surfaced to any caller. -/
theorem c10_missing_or_corrupt_treated_as_empty (d : DiskFile) (now sid : String)
    (s : SessionData) (h : d = DiskFile.absent ∨ d = DiskFile.corrupt) :
    getSession d now sid = none ∧
    listSessions d now = [] ∧
    (deleteSession d now sid).result = false ∧
    (deleteSession d now sid).disk = d ∧
    (createSession d now s).disk
      = DiskFile.stored { sessions := [(s.sessionId, s)], lastUpdated := now } := by
  rcases h with h | h <;> subst h <;>
    simp [getSession, listSessions, deleteSession, createSession, loadSessions,
      saveSessions, alistLookup, alistSet, sortByStartDesc]

/-- Witness for C10 at the corrupt disk state. -/
theorem c10_missing_or_corrupt_treated_as_empty_witness :
    (DiskFile.corrupt = DiskFile.absent ∨ DiskFile.corrupt = DiskFile.corrupt) ∧
    (getSession DiskFile.corrupt "t1" "s1" = none ∧
     listSessions DiskFile.corrupt "t1" = [] ∧
     (deleteSession DiskFile.corrupt "t1" "s1").result = false ∧
     (deleteSession DiskFile.corrupt "t1" "s1").disk = DiskFile.corrupt ∧
     (createSession DiskFile.corrupt "t1" sampleSession).disk
       = DiskFile.stored { sessions := [("s1", sampleSession)], lastUpdated := "t1" }) :=
  ⟨Or.inr rfl,
   c10_missing_or_corrupt_treated_as_empty DiskFile.corrupt "t1" "s1" sampleSession
     (Or.inr rfl)⟩

/-- C6 counterexample: the persistence performed by a concrete store
mutation (`createSession` on an empty disk) does not follow the spec's
write-temporary-then-atomically-rename discipline — it is a direct in-place
write of the store file. -/
theorem c6_no_atomic_replace_counterexample :
    specAtomicReplacePersist (createSession DiskFile.absent "t0" sampleSession).ops
      = false := by
  decide

/-- C6 amended: every Session Store mutation persists by writing the new
content directly to the store file in place — its file-operation trace is
exactly one `writeFile` of the sessions path (plus, for `delete`, the
removal of the session's media directory), never a temporary-file write or
a rename; a mutation that does not find its session performs no file
operation at all. -/
theorem c6_inplace_write (disk : DiskFile) (now sid : String) (s : SessionData)
    (p : SessionPatch) (evs : List String) :
    (createSession disk now s).ops = [FileOp.writeFile sessionsPath] ∧
    ((updateSession disk now sid p).ops = [] ∨
      (updateSession disk now sid p).ops = [FileOp.writeFile sessionsPath]) ∧
    ((appendEvents disk now sid evs).ops = [] ∨
      (appendEvents disk now sid evs).ops = [FileOp.writeFile sessionsPath]) ∧
    ((deleteSession disk now sid).ops = [] ∨
      (deleteSession disk now sid).ops
        = [FileOp.removeDir (recordingsDir ++ "/" ++ sid), FileOp.writeFile sessionsPath]) := by
  refine ⟨rfl, ?_, ?_, ?_⟩ <;>
    cases h : alistLookup (loadSessions disk now).sessions sid <;>
      simp [updateSession, appendEvents, deleteSession, h, saveSessionsOps]

/-! ## Chunk Aggregator (ChunkManager.ts)

Per-session, per-media-type in-memory chunk tracking (`chunksMap`) and the
merge of tracked chunk files into one artifact.  File contents are
embedded through an explicit `fileContent : String → List Nat` map from
path to byte payload. -/

/-- The two media types of `ChunkInfo.type`. -/
inductive MediaType where
  | video
  | audio
deriving Repr, DecidableEq

/-- `ChunkInfo` descriptor tracked for each uploaded chunk. -/
structure ChunkInfo where
  index : Nat
  ctype : MediaType
  path : String
  size : Nat
deriving Repr, DecidableEq

/-- `SessionChunks`: the per-session pair of tracked chunk lists. -/
structure SessionChunks where
  video : List ChunkInfo
  audio : List ChunkInfo
deriving Repr, DecidableEq

/-- `sessionChunks[type]` read access. -/
def chunksOf (sc : SessionChunks) : MediaType → List ChunkInfo
  | MediaType.video => sc.video
  | MediaType.audio => sc.audio

/-- `sessionChunks[type] = l` assignment. -/
def withChunks (sc : SessionChunks) : MediaType → List ChunkInfo → SessionChunks
  | MediaType.video, l => { sc with video := l }
  | MediaType.audio, l => { sc with audio := l }

/-- `{ video: [], audio: [] }`. -/
def emptySessionChunks : SessionChunks := ⟨[], []⟩

/-- Stable insertion by ascending `index`, matching the JS
`sort((a, b) => a.index - b.index)`. -/
def insertByIndex (c : ChunkInfo) : List ChunkInfo → List ChunkInfo
  | [] => [c]
  | d :: rest => if c.index ≤ d.index then c :: d :: rest else d :: insertByIndex c rest

/-- Stable sort of a chunk list by ascending `index`. -/
def sortByIndex : List ChunkInfo → List ChunkInfo
  | [] => []
  | c :: rest => insertByIndex c (sortByIndex rest)

/-- `addChunk`: initialize the session's entry if absent, push the chunk
onto its type's list, re-sort that list by index. -/
def addChunk (m : List (String × SessionChunks)) (sid : String) (c : ChunkInfo) :
    List (String × SessionChunks) :=
  let sc := (alistLookup m sid).getD emptySessionChunks
  alistSet m sid (withChunks sc c.ctype (sortByIndex (chunksOf sc c.ctype ++ [c])))

/-- The `No ... chunks found` error of `mergeChunks`. -/
inductive MergeErr where
  | noChunks
deriving Repr, DecidableEq

/-- Successful merge outcome: the artifact path, its byte content, and the
chunk-tracking state left behind. -/
structure MergeResult where
  outputPath : String
  content : List Nat
  chunkMap : List (String × SessionChunks)
deriving Repr, DecidableEq

/-- The deterministic artifact name `recording_<type>.webm` inside the
session's directory. -/
def outputPathFor (sid : String) (t : MediaType) : String :=
  recordingsDir ++ "/" ++ sid ++ "/recording_"
    ++ (match t with | MediaType.video => "video" | MediaType.audio => "audio") ++ ".webm"

/-- `mergeChunks`: fail when no chunks are tracked for the session/type;
with exactly one chunk, rename it to the artifact path and return — the
in-memory list is left as is; with several, concatenate their file
contents in tracked (index) order into the artifact and clear the
in-memory list. -/
def mergeChunks (fileContent : String → List Nat)
    (m : List (String × SessionChunks)) (sid : String) (t : MediaType) :
    Except MergeErr MergeResult :=
  match alistLookup m sid with
  | none => Except.error MergeErr.noChunks
  | some sc =>
    match chunksOf sc t with
    | [] => Except.error MergeErr.noChunks
    | [c] => Except.ok ⟨outputPathFor sid t, fileContent c.path, m⟩
    | c :: d :: rest =>
      Except.ok
        ⟨outputPathFor sid t,
         ((c :: d :: rest).map fun ch => fileContent ch.path).flatten,
         alistSet m sid (withChunks sc t [])⟩

/-- Artifact path and content of a merge outcome, `none` on failure. -/
def mergeOutcome (r : Except MergeErr MergeResult) : Option (String × List Nat) :=
  match r with
  | Except.ok res => some (res.outputPath, res.content)
  | Except.error _ => none

/-! Concrete chunk data for the C3/C4 statements. -/

def chunkV0 : ChunkInfo := ⟨0, MediaType.video, "/tmp/s1-video-0", 5⟩

def chunkV1 : ChunkInfo := ⟨1, MediaType.video, "/tmp/s1-video-1", 2⟩

def fsDemo : String → List Nat := fun p =>
  if p = "/tmp/s1-video-0" then [7, 8, 9]
  else if p = "/tmp/s1-video-1" then [4, 5]
  else []

/-- C3: with zero tracked chunks `mergeChunks` does fail with `NoChunks`,
but after a successful single-chunk merge the in-memory set is NOT
cleared — the tracking state comes back unchanged, so an immediately
repeated `mergeChunks` does not fail with `NoChunks` (it re-attempts the
rename of the already-moved chunk file).  Only the multi-chunk path clears
the set.  This contradicts the specified behavior; the single-chunk early
return skipping the cleanup is the slip. -/
theorem c3_single_chunk_merge_not_cleared :
    mergeChunks fsDemo [] "s1" MediaType.video = Except.error MergeErr.noChunks ∧
    mergeChunks fsDemo (addChunk [] "s1" chunkV0) "s1" MediaType.video
      = Except.ok ⟨outputPathFor "s1" MediaType.video, [7, 8, 9], addChunk [] "s1" chunkV0⟩ ∧
    mergeChunks fsDemo (addChunk [] "s1" chunkV0) "s1" MediaType.video
      ≠ Except.error MergeErr.noChunks ∧
    mergeChunks fsDemo (addChunk (addChunk [] "s1" chunkV0) "s1" chunkV1) "s1" MediaType.video
      = Except.ok ⟨outputPathFor "s1" MediaType.video, [7, 8, 9, 4, 5],
          [("s1", emptySessionChunks)]⟩ := by
  have hok : mergeChunks fsDemo (addChunk [] "s1" chunkV0) "s1" MediaType.video
      = Except.ok ⟨outputPathFor "s1" MediaType.video, [7, 8, 9], addChunk [] "s1" chunkV0⟩ := rfl
  refine ⟨rfl, hok, ?_, rfl⟩
  rw [hok]
  intro hcontra
  exact Except.noConfusion hcontra

/-- C4: adding three chunks with indices 0, 1, 2 (same session and type)
in any of the six arrival orders and then merging produces one artifact at
the deterministic path whose content is the concatenation of the chunk
payloads in ascending index order. -/
theorem c4_merge_ascending (sid : String) (c0 c1 c2 : ChunkInfo) (t : MediaType)
    (fileContent : String → List Nat)
    (h0 : c0.index = 0) (h1 : c1.index = 1) (h2 : c2.index = 2)
    (ht0 : c0.ctype = t) (ht1 : c1.ctype = t) (ht2 : c2.ctype = t)
    (arrival : List ChunkInfo)
    (harr : arrival ∈ [[c0, c1, c2], [c0, c2, c1], [c1, c0, c2],
                       [c1, c2, c0], [c2, c0, c1], [c2, c1, c0]]) :
    mergeOutcome
        (mergeChunks fileContent
          (List.foldl (fun m c => addChunk m sid c) [] arrival) sid t)
      = some (outputPathFor sid t,
          fileContent c0.path ++ fileContent c1.path ++ fileContent c2.path) := by
  simp only [List.mem_cons, List.mem_singleton, List.not_mem_nil, or_false] at harr
  cases t <;>
    rcases harr with h | h | h | h | h | h <;> subst h <;>
      simp [addChunk, sortByIndex, insertByIndex, emptySessionChunks, chunksOf,
        withChunks, alistLookup, alistSet, mergeChunks, mergeOutcome,
        h0, h1, h2, ht0, ht1, ht2]

def chunkW0 : ChunkInfo := ⟨0, MediaType.video, "p0", 1⟩

def chunkW1 : ChunkInfo := ⟨1, MediaType.video, "p1", 1⟩

def chunkW2 : ChunkInfo := ⟨2, MediaType.video, "p2", 1⟩

def fsW : String → List Nat := fun p =>
  if p = "p0" then [10] else if p = "p1" then [11] else if p = "p2" then [12] else []

/-- Witness for C4: arrival order `[2, 0, 1]` of three concrete video
chunks merges to the payload concatenation in index order. -/
theorem c4_merge_ascending_witness :
    (chunkW0.index = 0 ∧ chunkW1.index = 1 ∧ chunkW2.index = 2 ∧
     chunkW0.ctype = MediaType.video ∧ chunkW1.ctype = MediaType.video ∧
     chunkW2.ctype = MediaType.video ∧
     [chunkW2, chunkW0, chunkW1] ∈
       [[chunkW0, chunkW1, chunkW2], [chunkW0, chunkW2, chunkW1],
        [chunkW1, chunkW0, chunkW2], [chunkW1, chunkW2, chunkW0],
        [chunkW2, chunkW0, chunkW1], [chunkW2, chunkW1, chunkW0]]) ∧
    mergeOutcome
        (mergeChunks fsW
          (List.foldl (fun m c => addChunk m "s1" c) [] [chunkW2, chunkW0, chunkW1])
          "s1" MediaType.video)
      = some (outputPathFor "s1" MediaType.video, [10, 11, 12]) :=
  ⟨⟨rfl, rfl, rfl, rfl, rfl, rfl, by decide⟩,
   c4_merge_ascending "s1" chunkW0 chunkW1 chunkW2 MediaType.video fsW
     rfl rfl rfl rfl rfl rfl [chunkW2, chunkW0, chunkW1] (by decide)⟩

/-! ## Processing Pipeline (ProcessingPipeline.ts)

`process` is embedded as a function from the external collaborators'
responses (an environment fixing what Deepgram and the Python service
would return), the session argument, and the on-disk store state, to the
final store state together with the ordered trace of the observable steps
the run performs: progress broadcasts (`io.emit`) and Session Store update
calls. -/

/-- Response shape of the Python service's `processAudio`. -/
structure ProcessResult where
  refinedText : String
  instructions : List String
  synthesizedAudioPath : String
deriving Repr, DecidableEq

/-- Responses of the external gateways during one run: whether Deepgram is
configured, what `transcribeFile` resolves or rejects with, whether the
Python health check passes, and what `processAudio` resolves or rejects
with. -/
structure PipelineEnv where
  deepgramConfigured : Bool
  transcribeResult : Except String Transcription
  pythonHealthy : Bool
  processAudioResult : Except String ProcessResult
deriving Repr

/-- One observable step of a pipeline run, in program order:
a `session_status` broadcast, any other broadcast, or a Session Store
update call (with whether the session was found, i.e. whether a store
write happened). -/
inductive PipeStep where
  | emitStatus (status message : String)
  | emitEvent (name : String)
  | update (patch : SessionPatch) (found : Bool)
deriving Repr, DecidableEq

/-- JS truthiness of `session.audioPath`. -/
def jsTruthy : Option String → Bool
  | none => false
  | some s => !(s == "")

/-- The initial `{ rawText: '', words: [], confidence: 0, duration: 0 }`. -/
def defaultTranscription : Transcription := ⟨"", [], 0, 0⟩

/-- One `sessionManager.updateSession` call made by the pipeline: the new
disk state and the recorded step. -/
def runUpdate (disk : DiskFile) (now sid : String) (p : SessionPatch) :
    DiskFile × PipeStep :=
  ((updateSession disk now sid p).disk,
   PipeStep.update p (updateSession disk now sid p).result.isSome)

/-- The `catch` block of `process`: record the error into the session and
broadcast a generic `error` event. -/
def catchSteps (disk : DiskFile) (now sid msg : String) : DiskFile × List PipeStep :=
  let r := runUpdate disk now sid { status := some "error", error := some msg }
  (r.1, [r.2, PipeStep.emitEvent "error"])

/-- Steps 2-5 of `process`, entered after the transcription step with the
transcription in hand: health-check the Python service; if unavailable,
broadcast completion, persist `completed`, and return; otherwise broadcast
`refining`, call `processAudio`, persist the refined script with status
`synthesizing`, broadcast `refinement_ready`, broadcast `synthesizing`,
persist the synthesized audio path with status `completed`, and emit the
closing broadcasts.  A `processAudio` rejection falls to the catch
block. -/
def pipelineTail (env : PipelineEnv) (sid : String) (tr : Transcription)
    (disk : DiskFile) (now : String) : DiskFile × List PipeStep :=
  if env.pythonHealthy = false then
    let r := runUpdate disk now sid { status := some "completed", processedAt := some now }
    (r.1,
     [PipeStep.emitStatus "completed" "Processing complete (AI services unavailable)",
      r.2, PipeStep.emitEvent "session_complete"])
  else
    match env.processAudioResult with
    | Except.error msg =>
      let e := catchSteps disk now sid msg
      (e.1, PipeStep.emitStatus "refining" "Refining script with Gemini AI..." :: e.2)
    | Except.ok pr =>
      let r1 := runUpdate disk now sid
        { refinedScript := some ⟨tr.rawText, pr.refinedText, pr.instructions⟩,
          status := some "synthesizing" }
      let r2 := runUpdate r1.1 now sid
        { synthesizedAudioPath := some pr.synthesizedAudioPath,
          status := some "completed", processedAt := some now }
      (r2.1,
       [PipeStep.emitStatus "refining" "Refining script with Gemini AI...",
        r1.2, PipeStep.emitEvent "refinement_ready",
        PipeStep.emitStatus "synthesizing" "Generating AI voiceover with ElevenLabs...",
        r2.2, PipeStep.emitEvent "synthesis_ready",
        PipeStep.emitStatus "completed" "Processing complete!",
        PipeStep.emitEvent "session_complete"])

/-- `ProcessingPipeline.process`: broadcast `transcribing`; if an audio
artifact exists and Deepgram is configured, transcribe (a rejection falls
to the catch block), persist the transcription with status `transcribing`
and broadcast `transcription_ready`; if Deepgram is unconfigured,
broadcast a skip note instead; then continue with steps 2-5. -/
def process (env : PipelineEnv) (session : SessionData) (disk : DiskFile)
    (now : String) : DiskFile × List PipeStep :=
  let sid := session.sessionId
  let e0 := PipeStep.emitStatus "transcribing" "Transcribing audio with Deepgram..."
  if jsTruthy session.audioPath && env.deepgramConfigured then
    match env.transcribeResult with
    | Except.error msg =>
      let e := catchSteps disk now sid msg
      (e.1, e0 :: e.2)
    | Except.ok tr =>
      let r1 := runUpdate disk now sid
        { transcription := some tr, status := some "transcribing" }
      let rest := pipelineTail env sid tr r1.1 now
      (rest.1, e0 :: r1.2 :: PipeStep.emitEvent "transcription_ready" :: rest.2)
  else
    let pre :=
      if env.deepgramConfigured then [e0]
      else [e0, PipeStep.emitStatus "transcribing" "Deepgram not configured, skipping..."]
    let rest := pipelineTail env sid defaultTranscription disk now
    (rest.1, pre ++ rest.2)

/-- Statuses a store-update patch writes. -/
def statusWritesOf (p : SessionPatch) : List String :=
  match p.status with
  | some s => [s]
  | none => []

/-- Formalization of the claimed ordering (from the spec's words, not the
source): walking the run's steps in order, every `session_status`
broadcast must announce a status that an earlier store update of this run
already wrote (or that the store already held when the run began). -/
def specStatusWriteBeforeBroadcast : List String → List PipeStep → Bool
  | _, [] => true
  | written, PipeStep.update p _ :: rest =>
    specStatusWriteBeforeBroadcast (statusWritesOf p ++ written) rest
  | written, PipeStep.emitStatus s _ :: rest =>
    written.contains s && specStatusWriteBeforeBroadcast written rest
  | written, PipeStep.emitEvent _ :: rest =>
    specStatusWriteBeforeBroadcast written rest

/-! Concrete run data for the pipeline claims. -/

def procSession : SessionData :=
  { sessionId := "s1"
  , url := "https://example.com"
  , viewport := ⟨1280, 720⟩
  , startTime := 1000
  , events := ["e1"]
  , audioPath := some "a.webm"
  , status := "processing" }

def procDisk : DiskFile :=
  DiskFile.stored { sessions := [("s1", procSession)], lastUpdated := "t0" }

def procEnv : PipelineEnv :=
  { deepgramConfigured := true
  , transcribeResult := Except.ok ⟨"hello world", ["hello", "world"], 9, 3⟩
  , pythonHealthy := true
  , processAudioResult := Except.ok ⟨"refined text", ["step one"], "synth.mp3"⟩ }

/-- C5 counterexample: in a concrete fully-successful run starting from a
store that holds the session with status `processing`, the claimed
write-before-broadcast ordering fails — the very first step broadcasts
`session_status: transcribing` while the store still holds the earlier
status `processing`, no store write having occurred yet. -/
theorem c5_broadcast_before_write_counterexample :
    specStatusWriteBeforeBroadcast ["processing"]
        (process procEnv procSession procDisk "t1").2
      = false := by
  rfl

/-- Patch persisted by the transcription stage. -/
def transcribingPatch (tr : Transcription) : SessionPatch :=
  { transcription := some tr, status := some "transcribing" }

/-- Patch persisted by the refinement stage. -/
def refiningPatch (tr : Transcription) (pr : ProcessResult) : SessionPatch :=
  { refinedScript := some ⟨tr.rawText, pr.refinedText, pr.instructions⟩,
    status := some "synthesizing" }

/-- Patch persisted by the synthesis stage. -/
def synthesizingPatch (pr : ProcessResult) (now : String) : SessionPatch :=
  { synthesizedAudioPath := some pr.synthesizedAudioPath,
    status := some "completed", processedAt := some now }

/-- Patch persisted on the enrichment-unavailable short circuit. -/
def completedPatch (now : String) : SessionPatch :=
  { status := some "completed", processedAt := some now }

/-- C5 amended: the pipeline's actual order interleaves broadcasts and
writes as follows.  In a fully successful run the trace is exactly:
broadcast `transcribing`; write `{transcription, status: transcribing}`;
`transcription_ready`; broadcast `refining` (the status `refining` is
never written to the store); write `{refinedScript, status: synthesizing}`;
`refinement_ready`; broadcast `synthesizing`; write `{synthesizedAudioPath,
status: completed, processedAt}`; `synthesis_ready`; broadcast `completed`;
`session_complete`.  So the stage-entry broadcasts `transcribing` and
`refining` precede the corresponding store writes, while the
`synthesizing` and final `completed` broadcasts do follow theirs.  On the
enrichment-unavailable path the `completed` broadcast likewise precedes
the `completed` write. -/
theorem c5_actual_broadcast_write_order (session s : SessionData) (disk : DiskFile)
    (now : String) (tr : Transcription) (pr : ProcessResult)
    (hs : getSession disk now session.sessionId = some s)
    (ha : jsTruthy session.audioPath = true) :
    (process ⟨true, Except.ok tr, true, Except.ok pr⟩ session disk now).2
      = [PipeStep.emitStatus "transcribing" "Transcribing audio with Deepgram...",
         PipeStep.update (transcribingPatch tr) true,
         PipeStep.emitEvent "transcription_ready",
         PipeStep.emitStatus "refining" "Refining script with Gemini AI...",
         PipeStep.update (refiningPatch tr pr) true,
         PipeStep.emitEvent "refinement_ready",
         PipeStep.emitStatus "synthesizing" "Generating AI voiceover with ElevenLabs...",
         PipeStep.update (synthesizingPatch pr now) true,
         PipeStep.emitEvent "synthesis_ready",
         PipeStep.emitStatus "completed" "Processing complete!",
         PipeStep.emitEvent "session_complete"] ∧
    (process ⟨true, Except.ok tr, false, Except.ok pr⟩ session disk now).2
      = [PipeStep.emitStatus "transcribing" "Transcribing audio with Deepgram...",
         PipeStep.update (transcribingPatch tr) true,
         PipeStep.emitEvent "transcription_ready",
         PipeStep.emitStatus "completed" "Processing complete (AI services unavailable)",
         PipeStep.update (completedPatch now) true,
         PipeStep.emitEvent "session_complete"] := by
  simp only [getSession] at hs
  constructor <;>
    simp [process, pipelineTail, runUpdate, updateSession, saveSessions,
      loadSessions_stored, alistLookup_set_self, hs, ha, transcribingPatch,
      refiningPatch, synthesizingPatch, completedPatch]

/-- Witness for the amended C5 at a concrete run. -/
theorem c5_actual_broadcast_write_order_witness :
    (getSession procDisk "t1" "s1" = some procSession ∧
     jsTruthy procSession.audioPath = true) ∧
    ((process ⟨true, Except.ok ⟨"hello world", ["hello", "world"], 9, 3⟩, true,
          Except.ok ⟨"refined text", ["step one"], "synth.mp3"⟩⟩
        procSession procDisk "t1").2
      = [PipeStep.emitStatus "transcribing" "Transcribing audio with Deepgram...",
         PipeStep.update (transcribingPatch ⟨"hello world", ["hello", "world"], 9, 3⟩) true,
         PipeStep.emitEvent "transcription_ready",
         PipeStep.emitStatus "refining" "Refining script with Gemini AI...",
         PipeStep.update (refiningPatch ⟨"hello world", ["hello", "world"], 9, 3⟩
           ⟨"refined text", ["step one"], "synth.mp3"⟩) true,
         PipeStep.emitEvent "refinement_ready",
         PipeStep.emitStatus "synthesizing" "Generating AI voiceover with ElevenLabs...",
         PipeStep.update (synthesizingPatch ⟨"refined text", ["step one"], "synth.mp3"⟩ "t1") true,
         PipeStep.emitEvent "synthesis_ready",
         PipeStep.emitStatus "completed" "Processing complete!",
         PipeStep.emitEvent "session_complete"] ∧
     (process ⟨true, Except.ok ⟨"hello world", ["hello", "world"], 9, 3⟩, false,
          Except.ok ⟨"refined text", ["step one"], "synth.mp3"⟩⟩
        procSession procDisk "t1").2
      = [PipeStep.emitStatus "transcribing" "Transcribing audio with Deepgram...",
         PipeStep.update (transcribingPatch ⟨"hello world", ["hello", "world"], 9, 3⟩) true,
         PipeStep.emitEvent "transcription_ready",
         PipeStep.emitStatus "completed" "Processing complete (AI services unavailable)",
         PipeStep.update (completedPatch "t1") true,
         PipeStep.emitEvent "session_complete"]) :=
  ⟨⟨rfl, rfl⟩,
   c5_actual_broadcast_write_order procSession procSession procDisk "t1"
     ⟨"hello world", ["hello", "world"], 9, 3⟩
     ⟨"refined text", ["step one"], "synth.mp3"⟩ rfl rfl⟩

/-- C7: in every run whose Python-service health probe reports unavailable
(the probe being reached, i.e. a taken transcription branch resolves), the
session ends at status `completed` with `processedAt` set, no store update
of the run carries status `refining` or `synthesizing`, and no store
update of the run writes the `refinedScript` field (which is left exactly
as it was). -/
theorem c7_unavailable_short_circuit (env : PipelineEnv) (session s : SessionData)
    (disk : DiskFile) (now : String)
    (hpy : env.pythonHealthy = false)
    (hs : getSession disk now session.sessionId = some s)
    (htr : (jsTruthy session.audioPath && env.deepgramConfigured) = true →
      ∃ tr, env.transcribeResult = Except.ok tr) :
    (∃ s2, getSession (process env session disk now).1 now session.sessionId = some s2 ∧
      s2.status = "completed" ∧ s2.processedAt = some now ∧
      s2.refinedScript = s.refinedScript) ∧
    ∀ p b, PipeStep.update p b ∈ (process env session disk now).2 →
      p.status ≠ some "refining" ∧ p.status ≠ some "synthesizing" ∧
      p.refinedScript = none := by
  obtain ⟨dg, trr, py, prr⟩ := env
  simp only at hpy
  subst hpy
  simp only [getSession] at hs ⊢
  by_cases hcond : (jsTruthy session.audioPath && dg) = true
  · obtain ⟨tr, htr2⟩ := htr hcond
    simp only at htr2
    subst htr2
    have hfin : alistLookup
        (loadSessions
          (process ⟨dg, Except.ok tr, false, prr⟩ session disk now).1 now).sessions
        session.sessionId
      = some (mergeSession (mergeSession s (transcribingPatch tr)) (completedPatch now)) := by
      simp [process, pipelineTail, runUpdate, updateSession, saveSessions,
        loadSessions_stored, alistLookup_set_self, hs, hcond,
        transcribingPatch, completedPatch]
    refine ⟨⟨_, hfin, ?_, ?_, ?_⟩, ?_⟩
    · simp [mergeSession, transcribingPatch, completedPatch]
    · simp [mergeSession, transcribingPatch, completedPatch]
    · simp [mergeSession, transcribingPatch, completedPatch]
    · simp [process, pipelineTail, runUpdate, updateSession, saveSessions,
        loadSessions_stored, alistLookup_set_self, hs, hcond]
  · simp only [Bool.not_eq_true] at hcond
    have hfin : alistLookup
        (loadSessions
          (process ⟨dg, trr, false, prr⟩ session disk now).1 now).sessions
        session.sessionId
      = some (mergeSession s (completedPatch now)) := by
      cases dg <;>
        simp [process, pipelineTail, runUpdate, updateSession, saveSessions,
          loadSessions_stored, alistLookup_set_self, hs, hcond, completedPatch]
    refine ⟨⟨_, hfin, ?_, ?_, ?_⟩, ?_⟩
    · simp [mergeSession, completedPatch]
    · simp [mergeSession, completedPatch]
    · simp [mergeSession, completedPatch]
    · cases dg <;>
        simp [process, pipelineTail, runUpdate, updateSession, saveSessions,
          loadSessions_stored, alistLookup_set_self, hs, hcond]

/-- Witness for C7: a concrete run with the Python service down reaches
`completed` with `processedAt` set and no refining/synthesizing writes. -/
theorem c7_unavailable_short_circuit_witness :
    ((PipelineEnv.mk true (Except.ok ⟨"hello", [], 1, 1⟩) false
        (Except.ok ⟨"r", [], "s.mp3"⟩)).pythonHealthy = false ∧
     getSession procDisk "t1" "s1" = some procSession) ∧
    ((∃ s2, getSession
          (process (PipelineEnv.mk true (Except.ok ⟨"hello", [], 1, 1⟩) false
            (Except.ok ⟨"r", [], "s.mp3"⟩)) procSession procDisk "t1").1 "t1" "s1"
        = some s2 ∧
      s2.status = "completed" ∧ s2.processedAt = some "t1" ∧
      s2.refinedScript = procSession.refinedScript) ∧
    ∀ p b, PipeStep.update p b ∈
        (process (PipelineEnv.mk true (Except.ok ⟨"hello", [], 1, 1⟩) false
          (Except.ok ⟨"r", [], "s.mp3"⟩)) procSession procDisk "t1").2 →
      p.status ≠ some "refining" ∧ p.status ≠ some "synthesizing" ∧
      p.refinedScript = none) :=
  ⟨⟨rfl, rfl⟩,
   c7_unavailable_short_circuit
     (PipelineEnv.mk true (Except.ok ⟨"hello", [], 1, 1⟩) false
       (Except.ok ⟨"r", [], "s.mp3"⟩))
     procSession procSession procDisk "t1" rfl rfl
     (fun _ => ⟨⟨"hello", [], 1, 1⟩, rfl⟩)⟩

theorem updateSession_not_found (disk : DiskFile) (now sid : String) (p : SessionPatch)
    (h : alistLookup (loadSessions disk now).sessions sid = none) :
    updateSession disk now sid p = ⟨none, disk, []⟩ := by
  simp [updateSession, h]

/-- C8: when the session has been deleted from the store, the rest of the
pipeline run — whether from the start or from any later stage
(`pipelineTail`) — performs no store write at all (the final disk state is
exactly the one it started from), every store-update call it makes comes
back not-found, and the deleted session is never re-inserted. -/
theorem c8_deleted_session_never_rewritten (env : PipelineEnv) (session : SessionData)
    (disk : DiskFile) (now : String)
    (habs : getSession disk now session.sessionId = none) :
    (process env session disk now).1 = disk ∧
    getSession (process env session disk now).1 now session.sessionId = none ∧
    (∀ p b, PipeStep.update p b ∈ (process env session disk now).2 → b = false) ∧
    ∀ tr, (pipelineTail env session.sessionId tr disk now).1 = disk ∧
      ∀ p b, PipeStep.update p b ∈ (pipelineTail env session.sessionId tr disk now).2 →
        b = false := by
  obtain ⟨dg, trr, py, prr⟩ := env
  simp only [getSession] at habs ⊢
  have hup : ∀ p, updateSession disk now session.sessionId p = ⟨none, disk, []⟩ :=
    fun p => updateSession_not_found disk now session.sessionId p habs
  cases dg <;> cases py <;> cases trr <;> cases prr <;>
    cases hja : jsTruthy session.audioPath <;>
      simp [process, pipelineTail, runUpdate, catchSteps, hup, habs, hja]

/-- Witness for C8: a concrete run over a store that does not contain the
session leaves the store byte-identical and every update not-found. -/
theorem c8_deleted_session_never_rewritten_witness :
    getSession (DiskFile.stored { sessions := [], lastUpdated := "t0" }) "t1" "s1" = none ∧
    ((process procEnv procSession
        (DiskFile.stored { sessions := [], lastUpdated := "t0" }) "t1").1
      = DiskFile.stored { sessions := [], lastUpdated := "t0" } ∧
    getSession (process procEnv procSession
        (DiskFile.stored { sessions := [], lastUpdated := "t0" }) "t1").1 "t1" "s1" = none ∧
    (∀ p b, PipeStep.update p b ∈
        (process procEnv procSession
          (DiskFile.stored { sessions := [], lastUpdated := "t0" }) "t1").2 → b = false) ∧
    ∀ tr, (pipelineTail procEnv "s1" tr
        (DiskFile.stored { sessions := [], lastUpdated := "t0" }) "t1").1
      = DiskFile.stored { sessions := [], lastUpdated := "t0" } ∧
      ∀ p b, PipeStep.update p b ∈
          (pipelineTail procEnv "s1" tr
            (DiskFile.stored { sessions := [], lastUpdated := "t0" }) "t1").2 →
        b = false) :=
  ⟨rfl,
   c8_deleted_session_never_rewritten procEnv procSession
     (DiskFile.stored { sessions := [], lastUpdated := "t0" }) "t1" rfl⟩

end Guideflow
